import Mathlib

/-!
Verification model of the WispHub CustomerCare MCP server core
(HTTP access layer with retry and cache, data normalizer, write-verification
protocol in the client/ticket services).

Modelling conventions:
* Upstream JSON values are a `Val` inductive (string/number/bool/null/object/array).
  JS objects are association lists with unique keys kept in insertion order.
* JS numbers are modelled as `Int`: every number the studied code paths inspect
  (status codes, enum codes, day counts, millisecond timestamps, TTLs) is integral;
  fractional concerns (money formatting, float parsing, date parsing, clock readings)
  are environment dependent in the source (`Intl.NumberFormat`, `parseFloat`,
  `date-fns`, `Date.now`) and are abstracted as parameters of the model.
* Fallible calls return `Except String` carrying the thrown error message.
-/

inductive Val where
  | str (s : String)
  | num (n : Int)
  | bool (b : Bool)
  | null
  | obj (fields : List (String × Val))
  | arr (elems : List Val)

namespace Val

/-- JS truthiness of a value (`undefined` is conflated with `null`;
empty string, `0`, `false`, `null` are falsy, objects and arrays are truthy). -/
def truthy : Val → Bool
  | .str s => s ≠ ""
  | .num n => n ≠ 0
  | .bool b => b
  | .null => false
  | .obj _ => true
  | .arr _ => true

end Val

/-- JS `a || b`. -/
def vOr (a b : Val) : Val := if a.truthy then a else b

/-- Association-list lookup on an object body. -/
def lookupField : List (String × Val) → String → Option Val
  | [], _ => none
  | (k, v) :: rest, key => if k = key then some v else lookupField rest key

/-- JS property read `o.k` (and `o?.k`): absent keys and non-object
receivers read as `null` (standing for `undefined`). -/
def getF (v : Val) (key : String) : Val :=
  match v with
  | .obj fs => (lookupField fs key).getD .null
  | _ => .null

/-- JS property assignment: replaces the value in place, appends a new key. -/
def setField : List (String × Val) → String → Val → List (String × Val)
  | [], key, v => [(key, v)]
  | (k, w) :: rest, key, v =>
      if k = key then (key, v) :: rest else (k, w) :: setField rest key v

/-- JS `delete o.k`. -/
def delField (fs : List (String × Val)) (key : String) : List (String × Val) :=
  fs.filter (fun kv => kv.1 ≠ key)

/-- JS object spread `{...a, ...b}`: keys of `b` override / append to `a`. -/
def mergeFields (a b : List (String × Val)) : List (String × Val) :=
  b.foldl (fun acc kv => setField acc kv.1 kv.2) a

/-- The response-unwrapping used identically by `actualizarCliente`,
`obtenerClienteWithRetry` and `actualizarTicket`:
a bare array yields its first element (or nothing when empty); an object whose
`results` key is an array yields the first result (or nothing); any other object
is taken as the single record; primitives yield nothing. -/
def unwrapSingle : Val → Option Val
  | .arr es => es.head?
  | .obj fs =>
      match lookupField fs "results" with
      | some (.arr es) => es.head?
      | _ => some (.obj fs)
  | _ => none

mutual

/-- Every value stored under key `key` anywhere inside a `Val` tree,
in field order. Used to state what a result records about a given field. -/
def valuesAtKey (key : String) : Val → List Val
  | .obj fs => valuesAtKeyFields key fs
  | .arr es => valuesAtKeyList key es
  | _ => []

def valuesAtKeyFields (key : String) : List (String × Val) → List Val
  | [] => []
  | (k, v) :: rest =>
      (if k = key then [v] else []) ++ valuesAtKey key v ++ valuesAtKeyFields key rest

def valuesAtKeyList (key : String) : List Val → List Val
  | [] => []
  | v :: rest => valuesAtKey key v ++ valuesAtKeyList key rest

end

mutual

/-- `JSON.stringify`, restricted to the value forms the model uses. -/
def jsonStringify : Val → String
  | .str s => "\x22" ++ s ++ "\x22"
  | .num n => toString n
  | .bool b => if b then "true" else "false"
  | .null => "null"
  | .obj fs => "\x7b" ++ jsonStringifyFields fs ++ "\x7d"
  | .arr es => "[" ++ jsonStringifyList es ++ "]"

def jsonStringifyFields : List (String × Val) → String
  | [] => ""
  | [(k, v)] => "\x22" ++ k ++ "\x22:" ++ jsonStringify v
  | (k, v) :: rest =>
      "\x22" ++ k ++ "\x22:" ++ jsonStringify v ++ "," ++ jsonStringifyFields rest

def jsonStringifyList : List Val → String
  | [] => ""
  | [v] => jsonStringify v
  | v :: rest => jsonStringify v ++ "," ++ jsonStringifyList rest

end

/-- JS template-literal coercion of a value to text. -/
def displayString : Val → String
  | .str s => s
  | .num n => toString n
  | .bool b => if b then "true" else "false"
  | .null => "null"
  | .obj _ => "[object Object]"
  | .arr _ => "[array]"

/-- JS `String.prototype.includes` for a non-empty pattern. -/
def strContains (s pat : String) : Bool :=
  (s.splitOn pat).length ≠ 1

/-- JS `String.prototype.includes` for a single character (e.g. `'@'`). -/
def strHasChar (s : String) (c : Char) : Bool := s.toList.contains c

/-- `.trim()` applied to a value: trims strings, leaves other values alone. -/
def trimVal : Val → Val
  | .str s => .str s.trim
  | v => v

section EnumMaps

/-! ### data-transformer.ts: enum mapping tables -/

/-- Canonical client-status vocabulary (`EstadoCliente`). -/
inductive EstadoCliente where
  | activo | suspendido | cancelado
  deriving DecidableEq, Repr

def EstadoCliente.canon : EstadoCliente → String
  | .activo => "activo"
  | .suspendido => "suspendido"
  | .cancelado => "cancelado"

/-- Canonical ticket-status vocabulary (`EstadoTicket`). -/
inductive EstadoTicket where
  | nuevo | en_progreso | resuelto | cerrado
  deriving DecidableEq, Repr

def EstadoTicket.canon : EstadoTicket → String
  | .nuevo => "nuevo"
  | .en_progreso => "en_progreso"
  | .resuelto => "resuelto"
  | .cerrado => "cerrado"

/-- Canonical ticket-priority vocabulary (`PrioridadTicket`). -/
inductive PrioridadTicket where
  | baja | normal | alta | muy_alta
  deriving DecidableEq, Repr

def PrioridadTicket.canon : PrioridadTicket → String
  | .baja => "baja"
  | .normal => "normal"
  | .alta => "alta"
  | .muy_alta => "muy_alta"

/-- `ESTADO_CLIENTE_MAP[estado] || 'cancelado'`
(`DataTransformer.estadoClienteStringToEnum`). -/
def estadoClienteStringToEnum (estado : String) : String :=
  if estado = "Activo" then "activo"
  else if estado = "Suspendido" then "suspendido"
  else if estado = "Cancelado" then "cancelado"
  else if estado = "Cortado" then "suspendido"
  else if estado = "Inactivo" then "cancelado"
  else "cancelado"

/-- `ESTADO_CLIENTE_REVERSE_MAP[estado] || 'Activo'`
(`DataTransformer.estadoClienteEnumToString`). -/
def estadoClienteEnumToString (estado : String) : String :=
  if estado = "activo" then "Activo"
  else if estado = "suspendido" then "Suspendido"
  else if estado = "cancelado" then "Cancelado"
  else "Activo"

/-- `ESTADO_TICKET_MAP[estado] || 'abierto'` (`DataTransformer.estadoTicketToString`). -/
def estadoTicketToString (estado : Int) : String :=
  if estado = 1 then "nuevo"
  else if estado = 2 then "en_progreso"
  else if estado = 3 then "resuelto"
  else if estado = 4 then "cerrado"
  else "abierto"

/-- `ESTADO_TICKET_REVERSE_MAP[estado] || 1` (`DataTransformer.estadoTicketToNumber`). -/
def estadoTicketToNumber (estado : String) : Int :=
  if estado = "nuevo" then 1
  else if estado = "en_progreso" then 2
  else if estado = "resuelto" then 3
  else if estado = "cerrado" then 4
  else 1

/-- `PRIORIDAD_TICKET_MAP[prioridad] || 'media'`
(`DataTransformer.prioridadTicketToString`). -/
def prioridadTicketToString (prioridad : Int) : String :=
  if prioridad = 1 then "baja"
  else if prioridad = 2 then "normal"
  else if prioridad = 3 then "alta"
  else if prioridad = 4 then "muy_alta"
  else "media"

/-- `PRIORIDAD_TICKET_REVERSE_MAP[prioridad] || 2`
(`DataTransformer.prioridadTicketToNumber`). -/
def prioridadTicketToNumber (prioridad : String) : Int :=
  if prioridad = "baja" then 1
  else if prioridad = "normal" then 2
  else if prioridad = "alta" then 3
  else if prioridad = "muy_alta" then 4
  else 2

/-- `DataTransformer.isValidServicioId`: a service id is valid iff it is a
positive integer (ids reach the services as `number`s, modelled as `Int`). -/
def isValidServicioId (id : Int) : Bool := id > 0

end EnumMaps

section CacheModel

/-! ### utils/cache.ts: `CacheManager` -/

/-- A cache entry: the stored value and its absolute expiry timestamp
(`Date.now() + ttl`, milliseconds). -/
structure CacheEntry where
  value : Val
  expires : Int

structure CacheStats where
  hits : Nat := 0
  misses : Nat := 0
  sets : Nat := 0
  deletes : Nat := 0
  clears : Nat := 0
  deriving Repr, DecidableEq

/-- `CacheManager`: a `Map` from keys to entries plus counters.  The map is an
association list with unique keys in insertion order. -/
structure CacheManager where
  entries : List (String × CacheEntry) := []
  stats : CacheStats := {}

/-- Assoc-list lookup specialised to cache entries. -/
def lookupEntry : List (String × CacheEntry) → String → Option CacheEntry
  | [], _ => none
  | (k, e) :: rest, key => if k = key then some e else lookupEntry rest key

/-- `Map.set` semantics: replace in place or append. -/
def setEntry : List (String × CacheEntry) → String → CacheEntry → List (String × CacheEntry)
  | [], key, e => [(key, e)]
  | (k, e0) :: rest, key, e =>
      if k = key then (key, e) :: rest else (k, e0) :: setEntry rest key e

/-- `Map.delete` semantics. -/
def delEntry (es : List (String × CacheEntry)) (key : String) : List (String × CacheEntry) :=
  es.filter (fun ke => ke.1 ≠ key)

/-- `CacheManager.set(key, value, ttl)` at clock reading `now`. -/
def cacheSet (c : CacheManager) (now : Int) (key : String) (value : Val) (ttl : Int) :
    CacheManager :=
  { entries := setEntry c.entries key ⟨value, now + ttl⟩
    stats := { c.stats with sets := c.stats.sets + 1 } }

/-- `CacheManager.get(key)` at clock reading `now`: returns the possibly-updated
cache and the value (`none` models the source returning `null`). -/
def cacheGet (c : CacheManager) (now : Int) (key : String) : CacheManager × Option Val :=
  match lookupEntry c.entries key with
  | none =>
      ({ c with stats := { c.stats with misses := c.stats.misses + 1 } }, none)
  | some entry =>
      if entry.expires < now then
        ({ entries := delEntry c.entries key
           stats := { c.stats with
                        misses := c.stats.misses + 1
                        deletes := c.stats.deletes + 1 } }, none)
      else
        ({ c with stats := { c.stats with hits := c.stats.hits + 1 } }, some entry.value)

end CacheModel

section HttpClient

/-! ### clients/wisphub-client.ts: `WispHubClient` -/

/-- The shape of an axios failure as inspected by the interceptor and
`formatError`: an optional response (status and body), an optional error code,
and the transport-level message. -/
structure AxiosErr where
  response : Option (Int × Val)
  code : Option String := none
  message : String

/-- The single error object the source builds (`new Error(message)`); every
failure branch constructs this same kind, whose `name` is always `"Error"`. -/
structure JsError where
  name : String
  message : String
  deriving Repr, DecidableEq

def mkError (msg : String) : JsError := ⟨"Error", msg⟩

/-- `WispHubClient.formatError`. -/
def formatError (e : AxiosErr) : JsError :=
  match e.response with
  | some (status, data) =>
      if data.truthy then
        let extracted := vOr (vOr (vOr (getF data "message") (getF data "error"))
                                  (getF data "detail"))
                             (.str (jsonStringify data))
        let errorMessage := vOr extracted (.str "Unknown API error")
        mkError ("WispHub API Error (" ++ toString status ++ "): " ++
                 displayString errorMessage)
      else if e.code = some "ECONNABORTED" then
        mkError "Request timeout - WispHub API is not responding"
      else
        mkError ("Network error: " ++ e.message)
  | none =>
      if e.code = some "ECONNABORTED" then
        mkError "Request timeout - WispHub API is not responding"
      else
        mkError ("Network error: " ++ e.message)

/-- `WispHubClient.shouldRetry`: retry on missing response or status ≥ 500. -/
def shouldRetry (e : AxiosErr) : Bool :=
  match e.response with
  | none => true
  | some (status, _) => status ≥ 500

/-- Outcome of one call through the response interceptor: the surfaced result,
the number of transport attempts performed, and the backoff delays (ms) waited. -/
structure HttpOutcome where
  result : Except JsError Val
  attempts : Nat
  delays : List Int

/-- The retry state the interceptor mutates onto the axios request config. -/
structure RetryCfg where
  retryFlag : Bool := false
  retryCount : Nat := 0

/-- `WispHubClient.setupInterceptors`, response-error path.  `transport n` is the
outcome of the `n`-th physical attempt (0-based).  Faithful to the source: a
failed attempt is retried only when the config's `_retry` flag is still unset;
the flag is set before the first retry, so it blocks every later one.  The
backoff delay `2^_retryCount * 1000` ms is waited before the bounds check. -/
def interceptorRun (transport : Nat → Except AxiosErr Val) (retryAttempts : Nat)
    (cfg : RetryCfg) (idx : Nat) (attempts : Nat) (delays : List Int) : HttpOutcome :=
  match transport idx with
  | .ok v => ⟨.ok v, attempts + 1, delays⟩
  | .error e =>
      if ¬ cfg.retryFlag ∧ shouldRetry e then
        let d : Int := 2 ^ cfg.retryCount * 1000
        let cnt := cfg.retryCount + 1
        if cnt ≤ retryAttempts then
          interceptorRun transport retryAttempts ⟨true, cnt⟩ (idx + 1)
            (attempts + 1) (delays ++ [d])
        else
          ⟨.error (formatError e), attempts + 1, delays ++ [d]⟩
      else
        ⟨.error (formatError e), attempts + 1, delays⟩
termination_by (if cfg.retryFlag then 0 else 1)
decreasing_by simp_all

/-- One HTTP request through the client, starting from a fresh config. -/
def httpRequest (transport : Nat → Except AxiosErr Val) (retryAttempts : Nat) : HttpOutcome :=
  interceptorRun transport retryAttempts {} 0 0 []

/-- `WispHubClient.getCacheKey`. -/
def getCacheKey (method endpoint : String) (params : Option Val) : String :=
  method ++ ":" ++ endpoint ++ ":" ++ (match params with
                                        | some p => jsonStringify p
                                        | none => "")

/-- Outcome of `WispHubClient.get`: surfaced result, updated cache, and whether
the network was called. -/
structure ClientGetOutcome where
  result : Except JsError Val
  cache : CacheManager
  networkCalled : Bool

/-- `WispHubClient.get(endpoint, params, cacheTtl)` at clock `now`, with the
network modelled by `network` (the already-interception-processed outcome).
A cached value is returned only if the cache read yields a truthy value. -/
def clientGet (cache : CacheManager) (now : Int) (endpoint : String) (params : Option Val)
    (cacheTtl : Option Int) (network : Except JsError Val) : ClientGetOutcome :=
  let cacheKey := getCacheKey "GET" endpoint params
  let useCache : Bool := match cacheTtl with
                  | some t => decide (t > 0)
                  | none => false
  let fetch : CacheManager → ClientGetOutcome := fun c =>
    match network with
    | .ok v =>
        ⟨.ok v, if useCache then cacheSet c now cacheKey v (cacheTtl.getD 0) else c, true⟩
    | .error err => ⟨.error err, c, true⟩
  if useCache then
    match cacheGet cache now cacheKey with
    | (c1, some cached) => if cached.truthy then ⟨.ok cached, c1, false⟩ else fetch c1
    | (c1, none) => fetch c1
  else
    fetch cache

end HttpClient

section Normalizer

/-! ### utils/data-transformer.ts: record normalization -/

/-- Environment-dependent primitives used by the normalizer: float parsing,
locale/currency formatting, date parsing/printing and the wall clock. The
source delegates these to `parseFloat`, `Intl.NumberFormat`, `date-fns` and
`Date`; the model abstracts them as parameters. -/
structure NormEnv where
  parseFloat : Val → Int
  formatMoney : Val → String
  dateToISO : Val → String
  parseDate : Val → Int
  now : Int
  nowISO : String

/-- Numeric coercion of a value that the straightline code uses as a number
(claim-relevant inputs are numeric; non-numbers would be NaN in JS). -/
def asNum : Val → Int
  | .num n => n
  | _ => 0

/-- `Math.ceil(diffMs / (1000*60*60*24))` on an integral millisecond difference:
the ceiling of `diffMs / 86400000`, computed as `⌊(diffMs + 86399999) / 86400000⌋`. -/
def ceilDays (diffMs : Int) : Int := Int.fdiv (diffMs + 86400000 - 1) 86400000

/-- `DataTransformer.clienteToUserFriendly`. -/
def clienteToUserFriendly (env : NormEnv) (o : Val) : Val :=
  .obj [
    ("id_servicio", getF o "id_servicio"),
    ("usuario", getF o "usuario"),
    ("nombre_completo", trimVal (vOr (getF o "nombre") (.str ""))),
    ("email", vOr (getF o "email") (.str "")),
    ("telefono", vOr (getF o "telefono") (.str "")),
    ("direccion", vOr (getF o "direccion") (.str "")),
    ("localidad", vOr (getF o "localidad") (.str "")),
    ("ciudad", vOr (getF o "ciudad") (.str "")),
    ("zona", vOr (getF (getF o "zona") "id") (.num 0)),
    ("zona_nombre", vOr (getF (getF o "zona") "nombre") (.str "")),
    ("plan", vOr (getF (getF o "plan_internet") "nombre") (.str "")),
    ("precio_plan", .str (env.formatMoney
        (.num (env.parseFloat (vOr (getF o "precio_plan") (.str "0")))))),
    ("estado", .str (match getF o "estado" with
                     | .str s => estadoClienteStringToEnum s
                     | _ => "cancelado")),
    ("estado_facturas", vOr (getF o "estado_facturas") (.str "")),
    ("fecha_instalacion", .str (env.dateToISO (getF o "fecha_instalacion"))),
    ("fecha_corte", .str (env.dateToISO (getF o "fecha_corte"))),
    ("fecha_ultimo_cambio", .str (env.dateToISO (getF o "ultimo_cambio"))),
    ("saldo_formateado", .str (env.formatMoney
        (.num (env.parseFloat (vOr (getF o "saldo") (.str "0")))))),
    ("saldo_numerico", .num (env.parseFloat (vOr (getF o "saldo") (.str "0")))),
    ("configuracion_red", .obj [
        ("ip", vOr (getF o "ip") (.str "")),
        ("ip_local", vOr (getF o "ip_local") .null),
        ("mac", vOr (getF o "mac_cpe") (.str "")),
        ("interfaz_lan", vOr (getF o "interfaz_lan") (.str "")),
        ("router_nombre", vOr (getF (getF o "router") "nombre") (.str "")),
        ("router_wifi", .obj [
            ("modelo", vOr (getF o "modelo_router_wifi") (.str "")),
            ("ip", vOr (getF o "ip_router_wifi") .null),
            ("mac", vOr (getF o "mac_router_wifi") (.str "")),
            ("ssid", vOr (getF o "ssid_router_wifi") (.str ""))])]),
    ("tecnico", .obj [
        ("id", vOr (getF (getF o "tecnico") "id") (.num 0)),
        ("nombre", vOr (getF (getF o "tecnico") "nombre") (.str ""))]),
    ("comentarios", vOr (getF o "comentarios") (.str "")),
    ("coordenadas", vOr (getF o "coordenadas") (.str ""))
  ]

/-- `DataTransformer.determinarEstadoVencimiento`. -/
def determinarEstadoVencimiento (diasVencido : Int) : String :=
  if diasVencido ≤ 0 then "vigente"
  else if diasVencido ≤ 30 then "vencida"
  else "muy_vencida"

/-- `f.dias_vencido || 0` read as a number. -/
def diasOf (g : Val) : Int := asNum (vOr (getF g "dias_vencido") (.num 0))

/-- `DataTransformer.determinarEstadoCuenta`: empty list is current, otherwise
classify `Math.max(...facturas.map(f => f.dias_vencido || 0))`. -/
def determinarEstadoCuenta (facturas : List Val) : String :=
  match facturas with
  | [] => "al_corriente"
  | f :: fs =>
      let maxDiasVencido := (fs.map diasOf).foldl max (diasOf f)
      if maxDiasVencido ≤ 0 then "al_corriente"
      else if maxDiasVencido ≤ 30 then "con_atraso"
      else "muy_atrasado"

/-- The per-invoice enrichment inside `DataTransformer.saldoToUserFriendly`:
derive `dias_vencido` when it is absent or zero and a due date exists, and
default the amount and invoice-id field-name variants. -/
def enrichFactura (env : NormEnv) (f : Val) : Val :=
  let dv0 := vOr (getF f "dias_vencido") (.num 0)
  let isZero : Bool := match dv0 with
                       | .num n => n = 0
                       | _ => false
  let dias : Val :=
    if isZero ∧ (getF f "fecha_vencimiento").truthy then
      .num (max 0 (ceilDays (env.now - env.parseDate (getF f "fecha_vencimiento"))))
    else dv0
  let fs := match f with
            | .obj fields => fields
            | _ => []
  .obj (setField (setField (setField fs
          "dias_vencido" dias)
          "monto" (vOr (getF f "monto") (vOr (getF f "total") (.num 0))))
          "id_factura" (vOr (getF f "id_factura") (vOr (getF f "id") (.num 0))))

/-- The per-invoice output record built at the end of
`DataTransformer.saldoToUserFriendly`. -/
def saldoFacturaOut (env : NormEnv) (f : Val) : Val :=
  .obj [
    ("id_factura", getF f "id_factura"),
    ("monto_formateado", .str (env.formatMoney (vOr (getF f "monto") (.num 0)))),
    ("monto_numerico", vOr (getF f "monto") (.num 0)),
    ("fecha_vencimiento", .str (env.dateToISO (getF f "fecha_vencimiento"))),
    ("dias_vencido", getF f "dias_vencido"),
    ("estado_vencimiento",
     .str (determinarEstadoVencimiento (asNum (getF f "dias_vencido"))))]

/-- `DataTransformer.saldoToUserFriendly`. -/
def saldoToUserFriendly (env : NormEnv) (s : Val) : Val :=
  let facturasV := vOr (getF s "facturas_pendientes") (vOr (getF s "facturas") (.arr []))
  let facturas := match facturasV with
                  | .arr es => es
                  | _ => []
  let enriched := facturas.map (enrichFactura env)
  let estadoCuenta := determinarEstadoCuenta enriched
  let saldoRaw := vOr (getF s "saldo_actual") (vOr (getF s "saldo") (.num 0))
  .obj [
    ("id_servicio", vOr (getF s "id_servicio") (.num 0)),
    ("saldo_actual_formateado", .str (env.formatMoney saldoRaw)),
    ("saldo_actual_numerico", saldoRaw),
    ("fecha_ultimo_pago", .str (env.dateToISO (getF s "fecha_ultimo_pago"))),
    ("estado_cuenta", .str estadoCuenta),
    ("facturas_pendientes", .obj [
        ("cantidad", .num enriched.length),
        ("total_adeudado", .str (env.formatMoney
            (.num (enriched.foldl
                     (fun acc f => acc + asNum (vOr (getF f "monto") (.num 0))) 0)))),
        ("facturas", .arr (enriched.map (saldoFacturaOut env)))])
  ]

end Normalizer

section ClienteService

/-! ### services/cliente.service.ts -/

/-- The uniform operation result (`ToolResponse`): success flag, optional data,
optional error text, timestamp, optional debug payload (an untyped object in
the source, hence a `Val` here). -/
structure ToolResult where
  success : Bool
  data : Option Val := none
  error : Option String := none
  timestamp : String
  debugInfo : Option Val := none

/-- `ActualizarClienteInput`. -/
structure UpdateParams where
  id_servicio : Int
  email : Option String := none
  telefono : Option String := none
  direccion : Option String := none
  localidad : Option String := none
  ciudad : Option String := none
  comentarios : Option String := none
  notificacion_sms : Option Bool := none
  notificaciones_push : Option Bool := none

/-- The `apiData` assembled by `actualizarCliente`: only fields that were
explicitly provided, strings trimmed, in the source's order. -/
def buildApiData (p : UpdateParams) : List (String × Val) :=
  (match p.email with
   | some s => [("email", Val.str s.trim)]
   | none => []) ++
  (match p.telefono with
   | some s => [("telefono", Val.str s.trim)]
   | none => []) ++
  (match p.direccion with
   | some s => [("direccion", Val.str s.trim)]
   | none => []) ++
  (match p.localidad with
   | some s => [("localidad", Val.str s.trim)]
   | none => []) ++
  (match p.ciudad with
   | some s => [("ciudad", Val.str s.trim)]
   | none => []) ++
  (match p.comentarios with
   | some s => [("comentarios", Val.str s.trim)]
   | none => []) ++
  (match p.notificacion_sms with
   | some b => [("notificacion_sms", Val.bool b)]
   | none => []) ++
  (match p.notificaciones_push with
   | some b => [("notificaciones_push", Val.bool b)]
   | none => [])

/-- The ordered endpoint fallback chain of `actualizarCliente`. -/
def endpointsToTry (id : Int) : List String :=
  ["/api/clientes/" ++ toString id ++ "/",
   "/api/clients/" ++ toString id ++ "/",
   "/api/usuarios/" ++ toString id ++ "/",
   "/api/contactos/" ++ toString id ++ "/"]

/-- The endpoint loop: try each endpoint's PUT in order, break on the first
success; the last endpoint's failure is rethrown. An empty list leaves
`response = null`. -/
def tryEndpoints (put : String → Except JsError Val) :
    List String → Except JsError (Option (String × Val))
  | [] => .ok none
  | [e] =>
      match put e with
      | .ok v => .ok (some (e, v))
      | .error err => .error err
  | e :: e2 :: rest =>
      match put e with
      | .ok v => .ok (some (e, v))
      | .error _ => tryEndpoints put (e2 :: rest)

/-- `ClienteService.actualizarCliente`. `put ep` is the outcome of
`httpClient.put(ep, apiData)`, `getVerify` the outcome of the post-write
re-read `httpClient.get('/api/clientes/{id}/')` (uncached). -/
def actualizarCliente (put : String → Except JsError Val)
    (getVerify : Except JsError Val) (env : NormEnv) (p : UpdateParams) : ToolResult :=
  let failRes : String → ToolResult := fun msg =>
    { success := false, error := some ("Error actualizando cliente: " ++ msg)
      timestamp := env.nowISO }
  if ¬ isValidServicioId p.id_servicio then
    failRes "ID de servicio inválido"
  else
    let apiData := buildApiData p
    if apiData.isEmpty then
      failRes "Debe proporcionar al menos un campo para actualizar"
    else
      match tryEndpoints put (endpointsToTry p.id_servicio) with
      | .error err => failRes err.message
      | .ok none => failRes "La API no devolvió datos del cliente actualizado"
      | .ok (some (usedEndpoint, response)) =>
        if ¬ response.truthy then
          failRes "La API no devolvió datos del cliente actualizado"
        else
          let fallback : ToolResult :=
            let cliente := clienteToUserFriendly env response
            { success := true, data := some cliente, timestamp := env.nowISO
              debugInfo := some (.obj [
                ("method", .str "PUT"), ("endpoint", .str usedEndpoint),
                ("sentToAPI", .obj apiData), ("apiResponse", response),
                ("verifiedCliente", .null), ("transformedCliente", cliente),
                ("verificationFailed", .bool true)]) }
          match getVerify with
          | .ok verifyResponse =>
              match unwrapSingle verifyResponse with
              | some verifiedCliente =>
                  let cliente := clienteToUserFriendly env verifiedCliente
                  { success := true, data := some cliente, timestamp := env.nowISO
                    debugInfo := some (.obj [
                      ("method", .str "PUT"), ("endpoint", .str usedEndpoint),
                      ("sentToAPI", .obj apiData), ("apiResponse", response),
                      ("verifiedCliente", verifiedCliente),
                      ("transformedCliente", cliente)]) }
              | none => fallback
          | .error _ => fallback

end ClienteService

section ObtenerCliente

/-! ### services/cliente.service.ts: `obtenerClienteWithRetry` -/

/-- `^\d+$`. -/
def isNumericId (s : String) : Bool := s ≠ "" && s.toList.all Char.isDigit

/-- `parseInt` on an all-digit string. -/
def parseDigits (s : String) : Int :=
  s.toList.foldl (fun n c => n * 10 + ((c.toNat : Int) - 48)) 0

/-- Endpoint and search parameters chosen from the looked-up identifier:
numeric ids hit the single-record endpoint, e-mail-looking strings search by
`email`, anything else by `search`. -/
def lookupRoute (clienteId : String) : String × List (String × Val) :=
  if isNumericId clienteId then
    ("/api/clientes/" ++ toString (parseDigits clienteId) ++ "/", [])
  else if strHasChar clienteId (Char.ofNat 64) then
    ("/api/clientes/", [("email", .str clienteId)])
  else
    ("/api/clientes/", [("search", .str clienteId)])

/-- Per-run context for the bounded-retry read: the outcome of each attempt's
HTTP GET, the per-attempt and total durations (clock dependent), and the
configured clients cache TTL. -/
structure RetryCtx where
  fetch : Nat → Except JsError Val
  durOf : Nat → Int
  totalDur : Int
  cacheClientesTtl : Option Int
  env : NormEnv

/-- A successful attempt's trace entry. -/
def okAttempt (a : Nat) (hasData : Bool) (ep : String) (sp : List (String × Val))
    (usedCache : Bool) (dur : Int) : Val :=
  .obj [("attempt", .num a), ("success", .bool true), ("duration", .num dur),
        ("hasData", .bool hasData), ("endpoint", .str ep),
        ("searchParams", .obj sp), ("usedCache", .bool usedCache)]

/-- A failed attempt's trace entry. -/
def failAttempt (a : Nat) (msg : String) (dur : Int) : Val :=
  .obj [("attempt", .num a), ("success", .bool false), ("error", .str msg),
        ("duration", .num dur)]

/-- The retry loop of `obtenerClienteWithRetry`.  Faithful control flow: a
found record returns success; an empty final attempt returns a successful
empty result; an empty non-final attempt records a second trace entry and
retries; a thrown error on the final attempt returns the failure result.
`fuel` counts the remaining loop iterations (`maxRetries - a + 1` at attempt
`a`), so the recursion is structural. -/
def obtenerLoop (ctx : RetryCtx) (clienteId : String) (maxRetries : Nat) :
    Nat → Nat → List Val → Option String → ToolResult
  | 0, _, attempts, lastError =>
      { success := false
        error := some ("Error obteniendo cliente después de " ++ toString maxRetries
                       ++ " intentos: " ++ lastError.getD "null")
        timestamp := ctx.env.nowISO
        debugInfo := some (.obj [("attempts", .arr attempts),
                                 ("totalDuration", .num ctx.totalDur),
                                 ("clienteId", .str clienteId),
                                 ("maxRetries", .num maxRetries),
                                 ("allAttemptsFailed", .bool true)]) }
  | fuel + 1, a, attempts, lastError =>
      let (endpoint, searchParams) := lookupRoute clienteId
      let outcome : Except JsError Val :=
        if isNumericId clienteId ∧ ¬ isValidServicioId (parseDigits clienteId) then
          .error (mkError "ID de servicio inválido")
        else ctx.fetch a
      match outcome with
      | .error e =>
          let attempts1 := attempts ++ [failAttempt a e.message (ctx.durOf a)]
          if a = maxRetries then
            { success := false
              error := some ("Error obteniendo cliente después de " ++ toString maxRetries
                             ++ " intentos: " ++ e.message)
              timestamp := ctx.env.nowISO
              debugInfo := some (.obj [("attempts", .arr attempts1),
                                       ("totalDuration", .num ctx.totalDur),
                                       ("clienteId", .str clienteId),
                                       ("maxRetries", .num maxRetries),
                                       ("allAttemptsFailed", .bool true)]) }
          else
            obtenerLoop ctx clienteId maxRetries fuel (a + 1) attempts1 (some e.message)
      | .ok response =>
          let cliente? := (unwrapSingle response).map (clienteToUserFriendly ctx.env)
          let usedCache : Bool :=
            a = 1 && (match ctx.cacheClientesTtl with
                      | some t => t ≠ 0
                      | none => false)
          let entry := okAttempt a cliente?.isSome endpoint searchParams usedCache (ctx.durOf a)
          let attempts1 := attempts ++ [entry]
          match cliente? with
          | some cliente =>
              { success := true, data := some cliente, timestamp := ctx.env.nowISO
                debugInfo := some (.obj [("attempts", .arr attempts1),
                                         ("totalDuration", .num ctx.totalDur),
                                         ("successfulAttempt", .num a),
                                         ("clienteId", .str clienteId),
                                         ("endpoint", .str endpoint),
                                         ("searchParams", .obj searchParams)]) }
          | none =>
              if a = maxRetries then
                { success := true, data := none, timestamp := ctx.env.nowISO
                  debugInfo := some (.obj [("attempts", .arr attempts1),
                                           ("totalDuration", .num ctx.totalDur),
                                           ("clienteId", .str clienteId),
                                           ("endpoint", .str endpoint),
                                           ("searchParams", .obj searchParams),
                                           ("noDataFound", .bool true)]) }
              else
                let attempts2 := attempts1 ++
                  [okAttempt a false endpoint searchParams usedCache (ctx.durOf a)]
                obtenerLoop ctx clienteId maxRetries fuel (a + 1) attempts2 lastError

/-- `ClienteService.obtenerCliente`: the bounded-retry read with its fixed
`maxRetries = 3`. -/
def obtenerCliente (ctx : RetryCtx) (clienteId : String) : ToolResult :=
  obtenerLoop ctx clienteId 3 3 1 [] none

end ObtenerCliente

section TicketService

/-! ### ticket.service.ts: `actualizarTicket` payload construction -/

/-- The caller-updatable ticket fields. -/
structure TicketUpdates where
  estado : Option String := none
  prioridad : Option String := none
  tecnico : Option String := none
  notas : Option String := none

/-- JS truthiness of an optional string field of the updates object. -/
def optTruthy : Option String → Bool
  | some s => s ≠ ""
  | none => false

/-- The `razonMap` lookup for a status change. -/
def razonMapLookup (estado : String) : Option String :=
  if estado = "nuevo" then some ""
  else if estado = "en_progreso" then some "Internet Intermitente"
  else if estado = "resuelto" then some "Otro"
  else if estado = "cerrado" then some "Otro"
  else none

/-- `razonMap[updates.estado] || 'Otro'`. -/
def razonFallaFor (estado : String) : String :=
  match razonMapLookup estado with
  | some s => if s = "" then "Otro" else s
  | none => "Otro"

/-- Status part of the `apiData` assembled by `actualizarTicket`: the numeric
status code plus the mandatory `razon_falla`. -/
def ticketEstadoBlock (u : TicketUpdates) : List (String × Val) :=
  if optTruthy u.estado then
    [("estado", Val.num (estadoTicketToNumber (u.estado.getD ""))),
     ("razon_falla", Val.str (razonFallaFor (u.estado.getD "")))]
  else []

/-- Priority part of the `apiData`. -/
def ticketPrioridadBlock (u : TicketUpdates) : List (String × Val) :=
  if optTruthy u.prioridad then
    [("prioridad", Val.num (prioridadTicketToNumber (u.prioridad.getD "")))]
  else []

/-- Technician part of the `apiData`: set only for an all-digit id or an
e-mail. -/
def ticketTecnicoBlock (u : TicketUpdates) : List (String × Val) :=
  if optTruthy u.tecnico then
    if isNumericId (u.tecnico.getD "").trim ||
       strHasChar (u.tecnico.getD "").trim (Char.ofNat 64) then
      [("tecnico", Val.str (u.tecnico.getD "").trim),
       ("email_tecnico",
        Val.str (if strHasChar (u.tecnico.getD "").trim (Char.ofNat 64) then
                   (u.tecnico.getD "").trim
                 else ""))]
    else []
  else []

/-- The `apiData` assembled by `actualizarTicket` before the merge. -/
def buildTicketApiData (u : TicketUpdates) : List (String × Val) :=
  ticketEstadoBlock u ++ ticketPrioridadBlock u ++ ticketTecnicoBlock u

/-- `TicketService.getDefaultAsunto`: first keyword hit in the ordered map,
falling back to a default subject. -/
def getDefaultAsunto (asunto : String) : String :=
  let s := asunto.toLower
  let m : List (String × String) :=
    [("internet", "Internet Lento"), ("lento", "Internet Lento"),
     ("velocidad", "Internet Lento"), ("no internet", "No Tiene Internet"),
     ("sin internet", "No Tiene Internet"), ("conexion", "No Tiene Internet"),
     ("intermitente", "Internet Intermitente"), ("cortes", "Internet Intermitente"),
     ("desconexion", "Internet Intermitente"), ("antena", "Antena Desalineada"),
     ("router", "No Responde el Router Wifi"), ("wifi", "No Responde el Router Wifi"),
     ("cable", "Cable UTP Dañado"), ("poe", "PoE Dañado"),
     ("conector", "Conector Dañado"), ("fibra", "Cable Fibra Dañado"),
     ("jumper", "Jumper Dañado"), ("cambio", "Cambio de Domicilio"),
     ("domicilio", "Cambio de Domicilio"), ("mudanza", "Cambio de Domicilio"),
     ("reconexion", "Reconexion"), ("reactivar", "Reconexion"),
     ("cancelacion", "Cancelación"), ("cancelar", "Cancelación"),
     ("baja", "Desconexión"), ("recoleccion", "Recolección De Equipos")]
  match m.find? (fun kv => strContains s kv.1) with
  | some kv => kv.2
  | none => "Otro Asunto"

/-- Stage 1 of the cleaning pipeline of `actualizarTicket`: convert a textual
`prioridad` to the numeric code WispHub expects. -/
def fixPrioridad (c : List (String × Val)) : List (String × Val) :=
  match lookupField c "prioridad" with
  | some (.str s) =>
      if s = "Alta" then setField c "prioridad" (.num 3)
      else if s = "Normal" then setField c "prioridad" (.num 2)
      else if s = "Baja" then setField c "prioridad" (.num 1)
      else c
  | _ => c

/-- Stage 2: convert a textual `estado` to its numeric code (default 1). -/
def fixEstado (c : List (String × Val)) : List (String × Val) :=
  match lookupField c "estado" with
  | some (.str s) =>
      setField c "estado"
        (.num (if s = "Nuevo" then 1
               else if s = "En Progreso" then 2
               else if s = "Resuelto" then 3
               else if s = "Cerrado" then 4
               else 1))
  | _ => c

/-- Stage 3: recompute `asuntos_default` from the subject when one is present. -/
def fixAsunto (c : List (String × Val)) : List (String × Val) :=
  let a := (lookupField c "asunto").getD .null
  if a.truthy then
    setField c "asuntos_default" (.str (getDefaultAsunto (displayString a)))
  else c

/-- Stage 4: force `origen_reporte` to the accepted format. -/
def fixOrigen (c : List (String × Val)) : List (String × Val) :=
  setField c "origen_reporte" (.str "portal_cliente")

/-- Stage 5: drop an empty or blank technician (and its e-mail). -/
def fixTecnico (c : List (String × Val)) : List (String × Val) :=
  let t := (lookupField c "tecnico").getD .null
  let emptyTec : Bool := ¬ t.truthy ||
    (match t with
     | .str s => s.trim = ""
     | _ => false)
  if emptyTec then delField (delField c "tecnico") "email_tecnico" else c

/-- Stage 6: append caller notes to the description under a timestamped marker
(`ts` is the locale-formatted timestamp). -/
def applyNotas (u : TicketUpdates) (ts : String) (c : List (String × Val)) :
    List (String × Val) :=
  if optTruthy u.notas then
    let currentDescripcion := vOr ((lookupField c "descripcion").getD .null) (.str "")
    setField c "descripcion"
      (.str (displayString currentDescripcion ++
             "\n\n--- ACTUALIZACIÓN " ++ ts ++ " ---\n" ++
             (u.notas.getD "").trim))
  else c

/-- Stage 7: status-driven bookkeeping dates — start date on `en_progreso`,
closure date / closer on `resuelto` and `cerrado`. -/
def applyDates (u : TicketUpdates) (nowDate nowTime : String)
    (c : List (String × Val)) : List (String × Val) :=
  if optTruthy u.estado then
    let wisphubDateFormat := nowDate ++ " " ++ nowTime
    if u.estado = some "en_progreso" then
      if ¬ ((lookupField c "fecha_inicio").getD .null).truthy then
        setField c "fecha_inicio" (.str wisphubDateFormat)
      else c
    else if u.estado = some "resuelto" ∨ u.estado = some "cerrado" then
      let d1 := setField c "fecha_fin" (.str wisphubDateFormat)
      let d2 := setField d1 "finalizado_por" (.str "admin@almacreativa")
      if ¬ ((lookupField d2 "fecha_inicio").getD .null).truthy then
        setField d2 "fecha_inicio" (.str wisphubDateFormat)
      else d2
    else c
  else c

/-- Stage 8: strip the fields upstream rejects on write. -/
def stripRejected (c : List (String × Val)) : List (String × Val) :=
  delField (delField (delField (delField (delField c
    "tickets_mensual") "tickets_anual") "vencimiento")
    "archivo_ticket") "respuestas"

/-- The cleaning/bookkeeping pipeline `actualizarTicket` applies to the freshly
fetched full ticket before merging, stage by stage in source order. -/
def cleanTicketData (u : TicketUpdates) (completeTicketData : List (String × Val))
    (nowDate nowTime ts : String) : List (String × Val) :=
  stripRejected (applyDates u nowDate nowTime
    (applyNotas u ts
      (fixTecnico (fixOrigen (fixAsunto (fixEstado (fixPrioridad completeTicketData)))))))

/-- The merged full-object PUT payload of `actualizarTicket`:
`{...cleanedCurrentData, ...apiData, id_ticket: ticketId}`. -/
def actualizarTicketPutData (ticketId : Int) (u : TicketUpdates)
    (completeTicketData : List (String × Val)) (nowDate nowTime ts : String) :
    List (String × Val) :=
  setField (mergeFields (cleanTicketData u completeTicketData nowDate nowTime ts)
                        (buildTicketApiData u))
           "id_ticket" (.num ticketId)

end TicketService

section Scenarios

/-! ### Concrete instances used to evaluate the model -/

/-- A fixed environment instantiation for concrete evaluations. -/
def env0 : NormEnv :=
  { parseFloat := fun _ => 0
    formatMoney := fun _ => "$0.00 MXN"
    dateToISO := fun _ => "2025-01-01T00:00:00.000Z"
    parseDate := fun _ => 0
    now := 0
    nowISO := "2025-01-01T00:00:00.000Z" }

/-- A transport that always answers 503 with a structured body. -/
def transport503 : Nat → Except AxiosErr Val := fun _ =>
  .error { response := some (503, .obj [("detail", .str "Service Unavailable")])
           message := "Request failed with status code 503" }

/-- A transport that always answers 404 (a client error). -/
def transport404 : Nat → Except AxiosErr Val := fun _ =>
  .error { response := some (404, .obj [("detail", .str "Not Found")])
           message := "Request failed with status code 404" }

/-- An API failure: response received, status 503, structured body. -/
def apiErr503 : AxiosErr :=
  { response := some (503, .obj [("detail", .str "boom")])
    message := "Request failed with status code 503" }

/-- A timeout failure: no response, `ECONNABORTED`. -/
def timeoutErr : AxiosErr :=
  { response := none, code := some "ECONNABORTED", message := "timeout of 8000ms exceeded" }

/-- A network failure: no response, no code. -/
def networkErr : AxiosErr :=
  { response := none, message := "connect ECONNREFUSED 1.2.3.4:443" }

/-- A received 503 whose body is empty text (falsy). -/
def emptyBody503 : AxiosErr :=
  { response := some (503, .str ""), message := "Request failed with status code 503" }

/-- An empty cache. -/
def emptyCache : CacheManager := { entries := [], stats := {} }

/-- Update request changing only `comentarios` to `"x"` for service 101. -/
def p0 : UpdateParams := { id_servicio := 101, comentarios := some "x" }

/-- PUT oracle: the first endpoint acknowledges the write with a minimal body
not echoing the updated field. -/
def put0 : String → Except JsError Val := fun ep =>
  if ep = "/api/clientes/101/" then .ok (.obj [("id_servicio", .num 101)])
  else .error (mkError "WispHub API Error (404): Not Found")

/-- Post-write re-read: `comentarios` is unchanged (the upstream silently
ignored the write). -/
def verify0 : Except JsError Val :=
  .ok (.obj [("id_servicio", .num 101), ("comentarios", .str "sin cambios")])

/-- The concrete client-update result for the mismatch scenario. -/
def updateResult0 : ToolResult := actualizarCliente put0 verify0 env0 p0

/-- Is this value a boolean? (A recorded match/mismatch verdict would be one.) -/
def isBoolVal : Val → Bool
  | .bool _ => true
  | _ => false

/-- A GET whose every attempt succeeds with an empty search result. -/
def ctx0 : RetryCtx :=
  { fetch := fun _ => .ok (.obj [("count", .num 0), ("results", .arr [])])
    durOf := fun _ => 7
    totalDur := 21
    cacheClientesTtl := some 300000
    env := env0 }

/-- The concrete bounded-retry result when no attempt finds a record. -/
def emptySearchResult0 : ToolResult := obtenerCliente ctx0 "juan"

/-- Number of entries in a result's debug attempt trace. -/
def attemptsLength (r : ToolResult) : Nat :=
  match r.debugInfo with
  | some d =>
      match getF d "attempts" with
      | .arr l => l.length
      | _ => 0
  | none => 0

/-- A ticket update closing the ticket with a note. -/
def u1 : TicketUpdates := { estado := some "resuelto", notas := some "cliente confirma" }

/-- A full current ticket as re-read before the merge. -/
def ticket1 : List (String × Val) :=
  [("id", .num 55), ("asunto", .str "internet lento"),
   ("descripcion", .str "Linea caida"), ("estado", .str "Nuevo"),
   ("prioridad", .str "Alta"), ("tecnico", .str ""),
   ("tickets_mensual", .num 2), ("respuestas", .arr [])]

/-- Balance environment whose date parser knows two due dates: 40 and 10 days
before the clock reading `now = 0`. -/
def env1 : NormEnv :=
  { parseFloat := fun _ => 0
    formatMoney := fun _ => "$0.00 MXN"
    dateToISO := fun _ => "2025-01-01T00:00:00.000Z"
    parseDate := fun v =>
      match v with
      | .str s => if s = "due40" then -3456000000 else if s = "due10" then -864000000 else 0
      | _ => 0
    now := 0
    nowISO := "2025-01-01T00:00:00.000Z" }

/-- A pending invoice due 40 days ago, days-overdue not supplied. -/
def f40 : Val :=
  .obj [("id_factura", .num 1), ("monto", .num 100), ("fecha_vencimiento", .str "due40")]

/-- A pending invoice due 10 days ago, days-overdue not supplied. -/
def f10 : Val :=
  .obj [("id_factura", .num 2), ("monto", .num 50), ("fecha_vencimiento", .str "due10")]

/-- A balance with the 40-days-overdue invoice. -/
def s40 : Val := .obj [("id_servicio", .num 7), ("facturas_pendientes", .arr [f40])]

/-- A balance with the 10-days-overdue invoice. -/
def s10 : Val := .obj [("id_servicio", .num 7), ("facturas_pendientes", .arr [f10])]

/-- A balance with no pending invoices. -/
def sEmpty : Val := .obj [("id_servicio", .num 7), ("facturas_pendientes", .arr [])]

end Scenarios

section Lemmas

/-! ### Helper lemmas about the object and cache primitives -/

theorem lookupField_setField_self (fs : List (String × Val)) (k : String) (v : Val) :
    lookupField (setField fs k v) k = some v := by
  induction fs with
  | nil => simp [setField, lookupField]
  | cons kv rest ih =>
      obtain ⟨k0, v0⟩ := kv
      by_cases h : k0 = k <;> simp [setField, lookupField, h, ih]

theorem lookupField_setField_ne (fs : List (String × Val)) (k key : String) (v : Val)
    (h : k ≠ key) : lookupField (setField fs key v) k = lookupField fs k := by
  induction fs with
  | nil => simp [setField, lookupField, Ne.symm h]
  | cons kv rest ih =>
      obtain ⟨k0, v0⟩ := kv
      by_cases h0 : k0 = key
      · subst h0
        simp [setField, lookupField, Ne.symm h]
      · simp [setField, lookupField, h0, ih]

theorem lookupField_delField_self (fs : List (String × Val)) (k : String) :
    lookupField (delField fs k) k = none := by
  induction fs with
  | nil => rfl
  | cons kv rest ih =>
      obtain ⟨k0, v0⟩ := kv
      by_cases h : k0 = k
      · simpa [delField, List.filter_cons, h, lookupField] using ih
      · simpa [delField, List.filter_cons, h, lookupField] using ih

theorem lookupField_delField_ne (fs : List (String × Val)) (k key : String)
    (h : k ≠ key) : lookupField (delField fs key) k = lookupField fs k := by
  induction fs with
  | nil => rfl
  | cons kv rest ih =>
      obtain ⟨k0, v0⟩ := kv
      by_cases h0 : k0 = key
      · subst h0
        simpa [delField, List.filter_cons, lookupField, Ne.symm h] using ih
      · by_cases h1 : k0 = k
        · subst h1
          simp [delField, List.filter_cons, lookupField, h0, h]
        · simpa [delField, List.filter_cons, lookupField, h0, h1] using ih

theorem lookupField_append (xs ys : List (String × Val)) (k : String) :
    lookupField (xs ++ ys) k =
      (match lookupField xs k with
       | some v => some v
       | none => lookupField ys k) := by
  induction xs with
  | nil => simp [lookupField]
  | cons kv rest ih =>
      obtain ⟨k0, v0⟩ := kv
      by_cases h : k0 = k <;> simp [lookupField, h, ih]

theorem mergeFields_nil (a : List (String × Val)) : mergeFields a [] = a := rfl

theorem mergeFields_cons (a : List (String × Val)) (k : String) (v : Val)
    (rest : List (String × Val)) :
    mergeFields a ((k, v) :: rest) = mergeFields (setField a k v) rest := rfl

theorem mergeFields_append (a b c : List (String × Val)) :
    mergeFields a (b ++ c) = mergeFields (mergeFields a b) c := by
  simp [mergeFields, List.foldl_append]

theorem lookupField_mergeFields_of_none (a b : List (String × Val)) (k : String)
    (h : lookupField b k = none) : lookupField (mergeFields a b) k = lookupField a k := by
  induction b generalizing a with
  | nil => rfl
  | cons kv rest ih =>
      obtain ⟨k0, v0⟩ := kv
      rw [mergeFields_cons]
      by_cases h0 : k0 = k
      · simp [lookupField, h0] at h
      · simp [lookupField, h0] at h
        rw [ih _ h, lookupField_setField_ne _ _ _ _ (Ne.symm h0)]

theorem mem_foldl_max (x : Int) (xs : List Int) : xs.foldl max x ∈ x :: xs := by
  induction xs generalizing x with
  | nil => simp [List.foldl]
  | cons y ys ih =>
      have h := ih (max x y)
      rcases max_choice x y with hm | hm <;>
        simp [List.foldl, hm] at h ⊢ <;> tauto

theorem init_le_foldl_max (x : Int) (xs : List Int) : x ≤ xs.foldl max x := by
  induction xs generalizing x with
  | nil => simp [List.foldl]
  | cons y ys ih => exact le_trans (le_max_left x y) (ih (max x y))

theorem le_foldl_max : ∀ (xs : List Int) (x : Int), ∀ y ∈ x :: xs, y ≤ xs.foldl max x := by
  intro xs
  induction xs with
  | nil =>
      intro x y hy
      simp at hy
      simp [List.foldl, hy]
  | cons z zs ih =>
      intro x y hy
      simp only [List.foldl_cons]
      simp only [List.mem_cons] at hy
      rcases hy with hy | hy | hy
      · rw [hy]
        exact le_trans (le_max_left x z) (init_le_foldl_max _ _)
      · rw [hy]
        exact le_trans (le_max_right x z) (init_le_foldl_max _ _)
      · exact ih (max x z) y (List.mem_cons_of_mem _ hy)

theorem lookupEntry_setEntry_self (es : List (String × CacheEntry)) (k : String)
    (e : CacheEntry) : lookupEntry (setEntry es k e) k = some e := by
  induction es with
  | nil => simp [setEntry, lookupEntry]
  | cons ke rest ih =>
      obtain ⟨k0, e0⟩ := ke
      by_cases h : k0 = k <;> simp [setEntry, lookupEntry, h, ih]

theorem lookupEntry_delEntry_self (es : List (String × CacheEntry)) (k : String) :
    lookupEntry (delEntry es k) k = none := by
  induction es with
  | nil => simp [delEntry, lookupEntry]
  | cons ke rest ih =>
      obtain ⟨k0, e0⟩ := ke
      by_cases h : k0 = k <;> simp [delEntry, lookupEntry, h] at ih ⊢ <;> simp [ih]

end Lemmas

section ClaimTheorems

/-- C8: for every canonical client-status value, converting to the upstream API
string and mapping back yields the same value; likewise for the four canonical
ticket-status values and the four canonical priority values through their
integer codings. -/
theorem claim_c8_enum_roundtrips :
    (∀ c : EstadoCliente, estadoClienteStringToEnum (estadoClienteEnumToString c.canon) = c.canon)
    ∧ (∀ t : EstadoTicket, estadoTicketToString (estadoTicketToNumber t.canon) = t.canon)
    ∧ (∀ p : PrioridadTicket, prioridadTicketToString (prioridadTicketToNumber p.canon) = p.canon) :=
  ⟨fun c => by cases c <;> rfl,
   fun t => by cases t <;> rfl,
   fun p => by cases p <;> rfl⟩

/-- C6 (amended): after `set(key, value, ttl)` at time `tset`, a `get` at any
time up to AND INCLUDING the expiry instant `tset + ttl` returns the stored
value and counts a hit; strictly after the expiry instant the read reports
absent, physically removes the entry, and counts a miss and a delete.  (The
claim as stated fails only at exactly the expiry instant, see the
counterexample.) -/
theorem claim_c6_cache_ttl (c : CacheManager) (key : String) (value : Val)
    (ttl tset tget : Int) (httl : 0 < ttl) :
    (tget ≤ tset + ttl →
       (cacheGet (cacheSet c tset key value ttl) tget key).2 = some value ∧
       (cacheGet (cacheSet c tset key value ttl) tget key).1.stats.hits =
         c.stats.hits + 1) ∧
    (tset + ttl < tget →
       (cacheGet (cacheSet c tset key value ttl) tget key).2 = none ∧
       lookupEntry (cacheGet (cacheSet c tset key value ttl) tget key).1.entries key = none ∧
       (cacheGet (cacheSet c tset key value ttl) tget key).1.stats.misses =
         c.stats.misses + 1 ∧
       (cacheGet (cacheSet c tset key value ttl) tget key).1.stats.deletes =
         c.stats.deletes + 1) := by
  constructor
  · intro hle
    have hnl : ¬ (tset + ttl < tget) := not_lt.mpr hle
    simp [cacheGet, cacheSet, lookupEntry_setEntry_self, hnl]
  · intro hlt
    simp [cacheGet, cacheSet, lookupEntry_setEntry_self, hlt, lookupEntry_delEntry_self]

/-- Witness for C6: a concrete fresh read and a concrete expired read. -/
theorem claim_c6_cache_ttl_witness :
    (0 : Int) < 5000 ∧
    (cacheGet (cacheSet emptyCache 0 "GET:/api/clientes/7/:" (.str "v") 5000) 4000
       "GET:/api/clientes/7/:").2 = some (.str "v") ∧
    (cacheGet (cacheSet emptyCache 0 "GET:/api/clientes/7/:" (.str "v") 5000) 6000
       "GET:/api/clientes/7/:").2 = none :=
  ⟨by decide,
   ((claim_c6_cache_ttl emptyCache "GET:/api/clientes/7/:" (.str "v") 5000 0 4000
       (by decide)).1 (by decide)).1,
   ((claim_c6_cache_ttl emptyCache "GET:/api/clientes/7/:" (.str "v") 5000 0 6000
       (by decide)).2 (by decide)).1⟩

/-- C6 counterexample: at exactly the expiry instant (`tset + ttl`), the code's
strict comparison `entry.expires < now` still serves the value and counts a
hit, while the claim requires absence at or after the expiry instant. -/
theorem claim_c6_counterexample :
    (cacheGet (cacheSet emptyCache 0 "GET:/api/clientes/7/:" (.str "v") 5000) 5000
       "GET:/api/clientes/7/:").2 = some (.str "v") ∧
    (cacheGet (cacheSet emptyCache 0 "GET:/api/clientes/7/:" (.str "v") 5000) 5000
       "GET:/api/clientes/7/:").1.stats.hits = 1 := by
  constructor <;> rfl

/-- C10: a cached GET with positive TTL serves a present, unexpired entry only
when the cached value is truthy; a falsy cached value (null, 0, empty string,
false) is bypassed and a fresh network call is made, whose outcome becomes the
result. -/
theorem claim_c10_falsy_cache_bypass (cache : CacheManager) (now : Int)
    (endpoint : String) (params : Option Val) (t : Int) (ht : 0 < t)
    (entry : CacheEntry)
    (hentry : lookupEntry cache.entries (getCacheKey "GET" endpoint params) = some entry)
    (hfresh : ¬ entry.expires < now) (network : Except JsError Val) :
    (entry.value.truthy = false →
       (clientGet cache now endpoint params (some t) network).networkCalled = true ∧
       (clientGet cache now endpoint params (some t) network).result = network) ∧
    (entry.value.truthy = true →
       (clientGet cache now endpoint params (some t) network).networkCalled = false ∧
       (clientGet cache now endpoint params (some t) network).result = .ok entry.value) := by
  constructor
  · intro hv
    cases network <;> simp [clientGet, cacheGet, hentry, hfresh, hv, ht]
  · intro hv
    simp [clientGet, cacheGet, hentry, hfresh, hv, ht]

/-- Witness for C10: a stored empty-string body is not served (network is
called), a stored non-empty body is served from cache. -/
theorem claim_c10_falsy_cache_bypass_witness :
    (clientGet (cacheSet emptyCache 0 (getCacheKey "GET" "/api/clientes/" none) (.str "") 60000)
       500 "/api/clientes/" none (some 60000) (.ok (.str "fresh"))).networkCalled = true ∧
    (clientGet (cacheSet emptyCache 0 (getCacheKey "GET" "/api/clientes/" none) (.str "ok") 60000)
       500 "/api/clientes/" none (some 60000) (.ok (.str "fresh"))).networkCalled = false :=
  ⟨((claim_c10_falsy_cache_bypass
       (cacheSet emptyCache 0 (getCacheKey "GET" "/api/clientes/" none) (.str "") 60000)
       500 "/api/clientes/" none 60000 (by decide) ⟨.str "", 60000⟩
       (by rfl) (by decide) (.ok (.str "fresh"))).1 (by rfl)).1,
   ((claim_c10_falsy_cache_bypass
       (cacheSet emptyCache 0 (getCacheKey "GET" "/api/clientes/" none) (.str "ok") 60000)
       500 "/api/clientes/" none 60000 (by decide) ⟨.str "ok", 60000⟩
       (by rfl) (by decide) (.ok (.str "fresh"))).2 (by rfl)).1⟩

/-- C3: with `retryAttempts = 3` and a transport that always fails with 503,
the interceptor performs exactly 2 transport attempts (a single retry, after a
`2^0`-second backoff) and then surfaces the failure — not the 4 attempts (3
retries) the claim states.  The `_retry` boolean set before the first retry
blocks every later retry, so the `retryAttempts` bound is unreachable.  A 4xx
failure is indeed never retried. -/
theorem claim_c3_retry_bug :
    (httpRequest transport503 3).attempts = 2 ∧
    (httpRequest transport503 3).delays = [1000] ∧
    (httpRequest transport503 3).result =
      .error (mkError "WispHub API Error (503): Service Unavailable") ∧
    ¬ (httpRequest transport503 3).attempts = 4 ∧
    (httpRequest transport404 3).attempts = 1 := by
  refine ⟨?_, ?_, ?_, ?_, ?_⟩ <;>
    simp [httpRequest, interceptorRun, transport503, transport404, shouldRetry,
          formatError, mkError, vOr, getF, lookupField, Val.truthy, displayString,
          jsonStringify]
  rfl

/-- C4 (amended): every failure surfaced by `formatError` is one single generic
`Error` kind (its `name` is always `"Error"`); the three cases are encoded only
in the message text — a received response with a truthy body yields
`WispHub API Error (status): …` with the message extracted from the body's
`message`/`error`/`detail` field falling back to a serialized dump, an
`ECONNABORTED` code with no response yields the fixed timeout text, and any
other failure without a response yields `Network error: …`.  No
programmatically distinguishable kind is attached. -/
theorem claim_c4_error_shapes (e : AxiosErr) :
    (formatError e).name = "Error" ∧
    (∀ status data, e.response = some (status, data) → data.truthy = true →
       (formatError e).message =
         "WispHub API Error (" ++ toString status ++ "): " ++
           displayString (vOr (vOr (vOr (vOr (getF data "message") (getF data "error"))
                                        (getF data "detail"))
                                   (.str (jsonStringify data)))
                              (.str "Unknown API error"))) ∧
    (e.response = none → e.code = some "ECONNABORTED" →
       (formatError e).message = "Request timeout - WispHub API is not responding") ∧
    (e.response = none → ¬ e.code = some "ECONNABORTED" →
       (formatError e).message = "Network error: " ++ e.message) := by
  refine ⟨?_, ?_, ?_, ?_⟩
  · cases h : e.response with
    | none =>
        by_cases hc : e.code = some "ECONNABORTED" <;> simp [formatError, h, hc, mkError]
    | some p =>
        obtain ⟨st, d⟩ := p
        by_cases hd : d.truthy <;>
          by_cases hc : e.code = some "ECONNABORTED" <;>
            simp [formatError, h, hd, hc, mkError]
  · intro status data hr hd
    simp [formatError, hr, hd, mkError]
  · intro hr hc
    simp [formatError, hr, hc, mkError]
  · intro hr hc
    simp [formatError, hr, hc, mkError]

/-- Witness for C4's amended statement at the concrete API-error input. -/
theorem claim_c4_error_shapes_witness :
    (formatError apiErr503).message = "WispHub API Error (503): boom" ∧
    (formatError timeoutErr).message = "Request timeout - WispHub API is not responding" := by
  constructor
  · have h := (claim_c4_error_shapes apiErr503).2.1 503
      (.obj [("detail", .str "boom")]) rfl rfl
    rw [h]
    rfl
  · have h := (claim_c4_error_shapes timeoutErr).2.2.1 rfl rfl
    rw [h]

/-- C4 counterexample: an API failure, a timeout and a network failure all
surface as the one generic `Error` kind (`name = "Error"`), distinguishable
only by message text; moreover a received 503 whose body is falsy is reported
with the network-error message shape, so even the message-level trichotomy does
not follow the received/not-received distinction the claim describes. -/
theorem claim_c4_counterexample :
    (formatError apiErr503).name = "Error" ∧
    (formatError timeoutErr).name = "Error" ∧
    (formatError networkErr).name = "Error" ∧
    (formatError apiErr503).name = (formatError timeoutErr).name ∧
    (formatError emptyBody503).message =
      "Network error: Request failed with status code 503" :=
  ⟨rfl, rfl, rfl, rfl, rfl⟩

end ClaimTheorems

section TicketLemmas

theorem lookupField_fixPrioridad_ne (c : List (String × Val)) (k : String)
    (h : k ≠ "prioridad") : lookupField (fixPrioridad c) k = lookupField c k := by
  unfold fixPrioridad
  split
  · split_ifs <;> simp [lookupField_setField_ne _ _ _ _ h]
  · rfl

theorem lookupField_fixEstado_ne (c : List (String × Val)) (k : String)
    (h : k ≠ "estado") : lookupField (fixEstado c) k = lookupField c k := by
  unfold fixEstado
  split
  · simp [lookupField_setField_ne _ _ _ _ h]
  · rfl

theorem lookupField_fixAsunto_ne (c : List (String × Val)) (k : String)
    (h : k ≠ "asuntos_default") : lookupField (fixAsunto c) k = lookupField c k := by
  simp only [fixAsunto]
  split_ifs <;> simp [lookupField_setField_ne _ _ _ _ h]

theorem lookupField_fixOrigen_ne (c : List (String × Val)) (k : String)
    (h : k ≠ "origen_reporte") : lookupField (fixOrigen c) k = lookupField c k := by
  simp [fixOrigen, lookupField_setField_ne _ _ _ _ h]

theorem lookupField_fixTecnico_ne (c : List (String × Val)) (k : String)
    (h1 : k ≠ "tecnico") (h2 : k ≠ "email_tecnico") :
    lookupField (fixTecnico c) k = lookupField c k := by
  simp only [fixTecnico]
  split_ifs <;>
    simp [lookupField_delField_ne _ _ _ h1, lookupField_delField_ne _ _ _ h2]

theorem lookupField_applyNotas_ne (u : TicketUpdates) (ts : String)
    (c : List (String × Val)) (k : String) (h : k ≠ "descripcion") :
    lookupField (applyNotas u ts c) k = lookupField c k := by
  simp only [applyNotas]
  split_ifs <;> simp [lookupField_setField_ne _ _ _ _ h]

theorem lookupField_applyDates_ne (u : TicketUpdates) (nowDate nowTime : String)
    (c : List (String × Val)) (k : String) (h1 : k ≠ "fecha_inicio")
    (h2 : k ≠ "fecha_fin") (h3 : k ≠ "finalizado_por") :
    lookupField (applyDates u nowDate nowTime c) k = lookupField c k := by
  simp only [applyDates]
  split_ifs <;>
    simp [lookupField_setField_ne _ _ _ _ h1, lookupField_setField_ne _ _ _ _ h2,
          lookupField_setField_ne _ _ _ _ h3]

theorem lookupField_stripRejected_of_mem (c : List (String × Val)) (k : String)
    (h : k ∈ (["tickets_mensual", "tickets_anual", "vencimiento", "archivo_ticket",
               "respuestas"] : List String)) :
    lookupField (stripRejected c) k = none := by
  simp only [List.mem_cons, List.not_mem_nil, or_false] at h
  rcases h with h | h | h | h | h <;> subst h <;>
    simp [stripRejected, lookupField_delField_self, lookupField_delField_ne]

theorem lookupField_stripRejected_ne (c : List (String × Val)) (k : String)
    (h1 : k ≠ "tickets_mensual") (h2 : k ≠ "tickets_anual") (h3 : k ≠ "vencimiento")
    (h4 : k ≠ "archivo_ticket") (h5 : k ≠ "respuestas") :
    lookupField (stripRejected c) k = lookupField c k := by
  simp [stripRejected, lookupField_delField_ne _ _ _ h1, lookupField_delField_ne _ _ _ h2,
        lookupField_delField_ne _ _ _ h3, lookupField_delField_ne _ _ _ h4,
        lookupField_delField_ne _ _ _ h5]

theorem lookupField_applyDates_fecha_fin (u : TicketUpdates) (nowDate nowTime : String)
    (c : List (String × Val))
    (h : u.estado = some "resuelto" ∨ u.estado = some "cerrado") :
    lookupField (applyDates u nowDate nowTime c) "fecha_fin" =
      some (.str (nowDate ++ " " ++ nowTime)) := by
  have hopt : optTruthy u.estado = true := by
    rcases h with h | h <;> simp [optTruthy, h]
  have hne : ¬ u.estado = some "en_progreso" := by
    rcases h with h | h <;> simp [h]
  simp only [applyDates]
  rw [if_pos hopt, if_neg hne, if_pos h]
  split_ifs
  · rw [lookupField_setField_ne _ _ _ _ (by decide), lookupField_setField_self]
  · rw [lookupField_setField_ne _ _ _ _ (by decide),
        lookupField_setField_ne _ _ _ _ (by decide), lookupField_setField_self]

theorem lookupField_ticketEstadoBlock_ne (u : TicketUpdates) (k : String)
    (h1 : k ≠ "estado") (h2 : k ≠ "razon_falla") :
    lookupField (ticketEstadoBlock u) k = none := by
  simp only [ticketEstadoBlock]
  split_ifs <;> simp [lookupField, Ne.symm h1, Ne.symm h2]

theorem lookupField_ticketPrioridadBlock_ne (u : TicketUpdates) (k : String)
    (h : k ≠ "prioridad") : lookupField (ticketPrioridadBlock u) k = none := by
  simp only [ticketPrioridadBlock]
  split_ifs <;> simp [lookupField, Ne.symm h]

theorem lookupField_ticketTecnicoBlock_ne (u : TicketUpdates) (k : String)
    (h1 : k ≠ "tecnico") (h2 : k ≠ "email_tecnico") :
    lookupField (ticketTecnicoBlock u) k = none := by
  simp only [ticketTecnicoBlock]
  split_ifs <;> simp [lookupField, Ne.symm h1, Ne.symm h2]

theorem buildTicketApiData_lookup_none (u : TicketUpdates) (k : String)
    (h1 : k ≠ "estado") (h2 : k ≠ "razon_falla") (h3 : k ≠ "prioridad")
    (h4 : k ≠ "tecnico") (h5 : k ≠ "email_tecnico") :
    lookupField (buildTicketApiData u) k = none := by
  simp [buildTicketApiData, lookupField_append,
        lookupField_ticketEstadoBlock_ne u k h1 h2,
        lookupField_ticketPrioridadBlock_ne u k h3,
        lookupField_ticketTecnicoBlock_ne u k h4 h5]

theorem mergeFields_buildTicketApiData_razon (a : List (String × Val))
    (u : TicketUpdates) (he : optTruthy u.estado = true) :
    lookupField (mergeFields a (buildTicketApiData u)) "razon_falla" =
      some (.str (razonFallaFor (u.estado.getD ""))) := by
  unfold buildTicketApiData
  rw [mergeFields_append, mergeFields_append]
  rw [lookupField_mergeFields_of_none _ _ _
        (lookupField_ticketTecnicoBlock_ne u _ (by decide) (by decide)),
      lookupField_mergeFields_of_none _ _ _
        (lookupField_ticketPrioridadBlock_ne u _ (by decide))]
  unfold ticketEstadoBlock
  rw [if_pos he, mergeFields_cons, mergeFields_cons, mergeFields_nil,
      lookupField_setField_self]

/-- `displayString (x || '')` on a string field reads back as stored. -/
theorem displayString_vOr_str (s : String) :
    displayString (vOr (.str s) (.str "")) = s := by
  by_cases h : s = "" <;> simp [vOr, Val.truthy, displayString, h]

end TicketLemmas

section ClaimC9

/-- C9: a ticket update that sets estado to `resuelto` or `cerrado` produces a
merged full-object PUT payload containing a non-empty `fecha_fin` closure
timestamp and the non-empty mandatory `razon_falla` reason code (`"Otro"`),
even though the caller supplied neither; the payload contains none of the
stripped fields `tickets_mensual`, `tickets_anual`, `vencimiento`,
`archivo_ticket`, `respuestas`; caller notes are appended to `descripcion`
under a timestamped marker and no separate `notas` field is introduced. -/
theorem claim_c9_ticket_close_payload (ticketId : Int) (u : TicketUpdates)
    (c : List (String × Val)) (nowDate nowTime ts : String)
    (hestado : u.estado = some "resuelto" ∨ u.estado = some "cerrado") :
    lookupField (actualizarTicketPutData ticketId u c nowDate nowTime ts) "fecha_fin" =
      some (.str (nowDate ++ " " ++ nowTime)) ∧
    (nowDate ++ " " ++ nowTime) ≠ "" ∧
    lookupField (actualizarTicketPutData ticketId u c nowDate nowTime ts) "razon_falla" =
      some (.str "Otro") ∧
    (∀ f ∈ (["tickets_mensual", "tickets_anual", "vencimiento", "archivo_ticket",
             "respuestas"] : List String),
       lookupField (actualizarTicketPutData ticketId u c nowDate nowTime ts) f = none) ∧
    (lookupField c "notas" = none →
       lookupField (actualizarTicketPutData ticketId u c nowDate nowTime ts) "notas" = none) ∧
    (∀ n desc, u.notas = some n → ¬ n = "" →
       lookupField c "descripcion" = some (.str desc) →
       lookupField (actualizarTicketPutData ticketId u c nowDate nowTime ts) "descripcion" =
         some (.str (desc ++ "\n\n--- ACTUALIZACIÓN " ++ ts ++ " ---\n" ++ n.trim))) := by
  have hopt : optTruthy u.estado = true := by
    rcases hestado with h | h <;> simp [optTruthy, h]
  have hrz : razonFallaFor (u.estado.getD "") = "Otro" := by
    rcases hestado with h | h <;> simp [h, razonFallaFor, razonMapLookup]
  refine ⟨?_, ?_, ?_, ?_, ?_, ?_⟩
  · unfold actualizarTicketPutData
    rw [lookupField_setField_ne _ _ _ _ (by decide),
        lookupField_mergeFields_of_none _ _ _
          (buildTicketApiData_lookup_none u _ (by decide) (by decide) (by decide)
            (by decide) (by decide))]
    unfold cleanTicketData
    rw [lookupField_stripRejected_ne _ _ (by decide) (by decide) (by decide)
          (by decide) (by decide),
        lookupField_applyDates_fecha_fin _ _ _ _ hestado]
  · intro hcontr
    have hlen := congrArg String.length hcontr
    have hsp : (" " : String).length = 1 := rfl
    have hem : ("" : String).length = 0 := rfl
    simp only [String.length_append, hsp, hem] at hlen
    omega
  · unfold actualizarTicketPutData
    rw [lookupField_setField_ne _ _ _ _ (by decide),
        mergeFields_buildTicketApiData_razon _ _ hopt, hrz]
  · intro f hf
    unfold actualizarTicketPutData
    have hfid : f ≠ "id_ticket" := by
      simp only [List.mem_cons, List.not_mem_nil, or_false] at hf
      rcases hf with h | h | h | h | h <;> subst h <;> decide
    have hfb : lookupField (buildTicketApiData u) f = none := by
      simp only [List.mem_cons, List.not_mem_nil, or_false] at hf
      rcases hf with h | h | h | h | h <;> subst h <;>
        exact buildTicketApiData_lookup_none u _ (by decide) (by decide) (by decide)
          (by decide) (by decide)
    rw [lookupField_setField_ne _ _ _ _ hfid,
        lookupField_mergeFields_of_none _ _ _ hfb]
    unfold cleanTicketData
    exact lookupField_stripRejected_of_mem _ _ hf
  · intro hn
    unfold actualizarTicketPutData cleanTicketData
    rw [lookupField_setField_ne _ _ _ _ (by decide),
        lookupField_mergeFields_of_none _ _ _
          (buildTicketApiData_lookup_none u _ (by decide) (by decide) (by decide)
            (by decide) (by decide)),
        lookupField_stripRejected_ne _ _ (by decide) (by decide) (by decide)
          (by decide) (by decide),
        lookupField_applyDates_ne _ _ _ _ _ (by decide) (by decide) (by decide),
        lookupField_applyNotas_ne _ _ _ _ (by decide),
        lookupField_fixTecnico_ne _ _ (by decide) (by decide),
        lookupField_fixOrigen_ne _ _ (by decide),
        lookupField_fixAsunto_ne _ _ (by decide),
        lookupField_fixEstado_ne _ _ (by decide),
        lookupField_fixPrioridad_ne _ _ (by decide)]
    exact hn
  · intro n desc hn hne hdesc
    have hnt : optTruthy u.notas = true := by simp [optTruthy, hn, hne]
    unfold actualizarTicketPutData cleanTicketData
    rw [lookupField_setField_ne _ _ _ _ (by decide),
        lookupField_mergeFields_of_none _ _ _
          (buildTicketApiData_lookup_none u _ (by decide) (by decide) (by decide)
            (by decide) (by decide)),
        lookupField_stripRejected_ne _ _ (by decide) (by decide) (by decide)
          (by decide) (by decide),
        lookupField_applyDates_ne _ _ _ _ _ (by decide) (by decide) (by decide)]
    simp only [applyNotas]
    rw [if_pos hnt, lookupField_setField_self]
    have hc5 : lookupField
        (fixTecnico (fixOrigen (fixAsunto (fixEstado (fixPrioridad c)))))
        "descripcion" = some (.str desc) := by
      rw [lookupField_fixTecnico_ne _ _ (by decide) (by decide),
          lookupField_fixOrigen_ne _ _ (by decide),
          lookupField_fixAsunto_ne _ _ (by decide),
          lookupField_fixEstado_ne _ _ (by decide),
          lookupField_fixPrioridad_ne _ _ (by decide)]
      exact hdesc
    rw [hc5]
    simp [displayString_vOr_str, hn]

/-- Witness for C9 at a concrete close-with-note update of a full ticket. -/
theorem claim_c9_ticket_close_payload_witness :
    lookupField (actualizarTicketPutData 55 u1 ticket1 "10/10/2025" "12:00:00"
      "10/10/25 12:00") "fecha_fin" = some (.str "10/10/2025 12:00:00") ∧
    lookupField (actualizarTicketPutData 55 u1 ticket1 "10/10/2025" "12:00:00"
      "10/10/25 12:00") "razon_falla" = some (.str "Otro") ∧
    lookupField (actualizarTicketPutData 55 u1 ticket1 "10/10/2025" "12:00:00"
      "10/10/25 12:00") "tickets_mensual" = none ∧
    lookupField (actualizarTicketPutData 55 u1 ticket1 "10/10/2025" "12:00:00"
      "10/10/25 12:00") "respuestas" = none ∧
    lookupField (actualizarTicketPutData 55 u1 ticket1 "10/10/2025" "12:00:00"
      "10/10/25 12:00") "notas" = none ∧
    lookupField (actualizarTicketPutData 55 u1 ticket1 "10/10/2025" "12:00:00"
      "10/10/25 12:00") "descripcion" =
      some (.str ("Linea caida\n\n--- ACTUALIZACIÓN 10/10/25 12:00 ---\n" ++
                  "cliente confirma".trim)) := by
  have h := claim_c9_ticket_close_payload 55 u1 ticket1 "10/10/2025" "12:00:00"
    "10/10/25 12:00" (Or.inl rfl)
  have hd := h.2.2.2.2.2 "cliente confirma" "Linea caida" rfl (by decide) rfl
  have heq : ("Linea caida" ++ "\n\n--- ACTUALIZACIÓN " ++ "10/10/25 12:00" ++
      " ---\n") = "Linea caida\n\n--- ACTUALIZACIÓN 10/10/25 12:00 ---\n" := rfl
  rw [heq] at hd
  exact ⟨h.1, h.2.2.1, h.2.2.2.1 "tickets_mensual" (by simp),
         h.2.2.2.1 "respuestas" (by simp), h.2.2.2.2.1 rfl, hd⟩

end ClaimC9

section ClaimC1C2C5

/-- C2: when the write is acknowledged (some endpoint's PUT succeeds with a
truthy body) and the post-write re-fetch succeeds and yields an entity, the
client-update result is success regardless of any difference between sent and
persisted values, and its data payload is the normalization of the re-read
entity — not of the values sent. -/
theorem claim_c2_update_uses_reread (put : String → Except JsError Val)
    (getVerify : Except JsError Val) (env : NormEnv) (p : UpdateParams)
    (hid : isValidServicioId p.id_servicio = true)
    (hne : ¬ buildApiData p = [])
    (ep : String) (resp : Val)
    (hput : tryEndpoints put (endpointsToTry p.id_servicio) = .ok (some (ep, resp)))
    (htr : resp.truthy = true)
    (vresp vc : Val) (hver : getVerify = .ok vresp)
    (hun : unwrapSingle vresp = some vc) :
    (actualizarCliente put getVerify env p).success = true ∧
    (actualizarCliente put getVerify env p).data =
      some (clienteToUserFriendly env vc) := by
  have hemp : (buildApiData p).isEmpty = false := by
    cases hB : buildApiData p
    · exact absurd hB hne
    · rfl
  simp [actualizarCliente, hid, hemp, hput, htr, hver, hun]

/-- Witness for C2: a concrete update of `comentarios` to `"x"` whose re-read
shows `"sin cambios"`; the result is success and its data is the normalization
of the re-read entity. -/
theorem claim_c2_update_uses_reread_witness :
    (actualizarCliente put0 verify0 env0 p0).success = true ∧
    (actualizarCliente put0 verify0 env0 p0).data =
      some (clienteToUserFriendly env0
        (.obj [("id_servicio", .num 101), ("comentarios", .str "sin cambios")])) :=
  claim_c2_update_uses_reread put0 verify0 env0 p0 rfl
    (by simp [buildApiData, p0]) "/api/clientes/101/" (.obj [("id_servicio", .num 101)])
    rfl rfl _ _ rfl rfl

/-- C1 (amended): when the post-write re-fetch succeeds and yields an entity,
the client-update result's debug payload carries exactly the raw sent payload,
the raw write response, the raw re-read entity and its normalization — no
field-by-field match/mismatch comparison is computed or recorded anywhere in
the result. -/
theorem claim_c1_no_comparison_report (put : String → Except JsError Val)
    (getVerify : Except JsError Val) (env : NormEnv) (p : UpdateParams)
    (hid : isValidServicioId p.id_servicio = true)
    (hne : ¬ buildApiData p = [])
    (ep : String) (resp : Val)
    (hput : tryEndpoints put (endpointsToTry p.id_servicio) = .ok (some (ep, resp)))
    (htr : resp.truthy = true)
    (vresp vc : Val) (hver : getVerify = .ok vresp)
    (hun : unwrapSingle vresp = some vc) :
    (actualizarCliente put getVerify env p).debugInfo =
      some (.obj [("method", .str "PUT"), ("endpoint", .str ep),
                  ("sentToAPI", .obj (buildApiData p)), ("apiResponse", resp),
                  ("verifiedCliente", vc),
                  ("transformedCliente", clienteToUserFriendly env vc)]) := by
  have hemp : (buildApiData p).isEmpty = false := by
    cases hB : buildApiData p
    · exact absurd hB hne
    · rfl
  simp [actualizarCliente, hid, hemp, hput, htr, hver, hun]

/-- Witness for C1's amended statement at the concrete mismatch scenario. -/
theorem claim_c1_no_comparison_report_witness :
    updateResult0.debugInfo =
      some (.obj [("method", .str "PUT"), ("endpoint", .str "/api/clientes/101/"),
                  ("sentToAPI", .obj (buildApiData p0)),
                  ("apiResponse", .obj [("id_servicio", .num 101)]),
                  ("verifiedCliente",
                   .obj [("id_servicio", .num 101), ("comentarios", .str "sin cambios")]),
                  ("transformedCliente", clienteToUserFriendly env0
                   (.obj [("id_servicio", .num 101), ("comentarios", .str "sin cambios")]))]) :=
  claim_c1_no_comparison_report put0 verify0 env0 p0 rfl
    (by simp [buildApiData, p0]) "/api/clientes/101/" (.obj [("id_servicio", .num 101)])
    rfl rfl _ _ rfl rfl

/-- C1 counterexample: in the claim's own scenario (update `{comentarios: "x"}`
acknowledged, re-read showing `comentarios` unchanged) the result is success
and reflects the re-read value, but nothing in the result marks `comentarios`
as mismatched: the only data recorded under the key `comentarios` anywhere in
the result are the raw sent and observed strings, and none of them is a
boolean (or any other) match/mismatch verdict. -/
theorem claim_c1_counterexample :
    updateResult0.success = true ∧
    getF (updateResult0.data.getD .null) "comentarios" = .str "sin cambios" ∧
    valuesAtKey "comentarios" (updateResult0.debugInfo.getD .null) =
      [.str ("x".trim), .str "sin cambios", .str "sin cambios"] ∧
    (valuesAtKey "comentarios" (updateResult0.debugInfo.getD .null)).all
      (fun v => ! isBoolVal v) = true ∧
    (valuesAtKey "comentarios" (updateResult0.data.getD .null)).all
      (fun v => ! isBoolVal v) = true :=
  ⟨rfl, rfl, rfl, rfl, rfl⟩

/-- C5 (amended): a bounded-retry fetch (maxRetries = 3) of a non-numeric
identifier whose three attempts all complete without error but find no record
returns success with an absent data payload and the `noDataFound` marker — not
a failure — but its attempt trace holds 5 entries, not 3: each non-final empty
attempt is recorded twice. -/
theorem claim_c5_empty_search (ctx : RetryCtx) (clienteId : String)
    (hnn : isNumericId clienteId = false) (r1 r2 r3 : Val)
    (h1 : ctx.fetch 1 = .ok r1) (h2 : ctx.fetch 2 = .ok r2) (h3 : ctx.fetch 3 = .ok r3)
    (hu1 : unwrapSingle r1 = none) (hu2 : unwrapSingle r2 = none)
    (hu3 : unwrapSingle r3 = none) :
    (obtenerCliente ctx clienteId).success = true ∧
    (obtenerCliente ctx clienteId).data = none ∧
    attemptsLength (obtenerCliente ctx clienteId) = 5 ∧
    getF ((obtenerCliente ctx clienteId).debugInfo.getD .null) "noDataFound" =
      .bool true := by
  simp [obtenerCliente, obtenerLoop, hnn, h1, h2, h3, hu1, hu2, hu3,
        attemptsLength, getF, lookupField]

/-- Witness for C5's amended statement at the concrete empty-search run. -/
theorem claim_c5_empty_search_witness :
    emptySearchResult0.success = true ∧
    emptySearchResult0.data = none ∧
    attemptsLength emptySearchResult0 = 5 ∧
    getF (emptySearchResult0.debugInfo.getD .null) "noDataFound" = .bool true :=
  claim_c5_empty_search ctx0 "juan" rfl _ _ _ rfl rfl rfl rfl rfl rfl

/-- C5 counterexample: in the claim's scenario the attempt trace has 5 entries,
not the claimed 3 (one per attempt). -/
theorem claim_c5_counterexample :
    attemptsLength emptySearchResult0 = 5 ∧
    ¬ attemptsLength emptySearchResult0 = 3 ∧
    emptySearchResult0.success = true ∧
    emptySearchResult0.data = none :=
  ⟨rfl, by decide, rfl, rfl⟩

end ClaimC1C2C5


section SaldoLemmas

theorem getF_saldoFacturaOut_dias (env : NormEnv) (g : Val) :
    getF (saldoFacturaOut env g) "dias_vencido" = getF g "dias_vencido" := by
  simp [saldoFacturaOut, getF, lookupField]

theorem getF_saldoFacturaOut_estado (env : NormEnv) (g : Val) :
    getF (saldoFacturaOut env g) "estado_vencimiento" =
      .str (determinarEstadoVencimiento (asNum (getF g "dias_vencido"))) := by
  simp [saldoFacturaOut, getF, lookupField]

theorem diasOf_saldoFacturaOut (env : NormEnv) (g : Val) :
    diasOf (saldoFacturaOut env g) = diasOf g := by
  simp [diasOf, getF_saldoFacturaOut_dias]

theorem getF_saldo_facturas (env : NormEnv) (s : Val) (facturas : List Val)
    (hf : getF s "facturas_pendientes" = .arr facturas) :
    getF (getF (saldoToUserFriendly env s) "facturas_pendientes") "facturas" =
      .arr ((facturas.map (enrichFactura env)).map (saldoFacturaOut env)) := by
  simp only [saldoToUserFriendly]
  rw [hf]
  simp [vOr, Val.truthy, getF, lookupField]

theorem getF_saldo_estado (env : NormEnv) (s : Val) (facturas : List Val)
    (hf : getF s "facturas_pendientes" = .arr facturas) :
    getF (saldoToUserFriendly env s) "estado_cuenta" =
      .str (determinarEstadoCuenta (facturas.map (enrichFactura env))) := by
  simp only [saldoToUserFriendly]
  rw [hf]
  simp [vOr, Val.truthy, getF, lookupField]

theorem getF_enrichFactura_dias_derived (env : NormEnv) (f : Val)
    (hd : getF f "dias_vencido" = .null)
    (hfv : (getF f "fecha_vencimiento").truthy = true) :
    getF (enrichFactura env f) "dias_vencido" =
      .num (max 0 (ceilDays (env.now - env.parseDate (getF f "fecha_vencimiento")))) := by
  simp only [enrichFactura, hd, hfv]
  have hz : vOr Val.null (Val.num 0) = Val.num 0 := rfl
  rw [hz]
  simp only [getF]
  rw [lookupField_setField_ne _ _ _ _ (by decide),
      lookupField_setField_ne _ _ _ _ (by decide), lookupField_setField_self]
  simp

end SaldoLemmas

section ClaimC7

/-- C7: for a balance whose pending-invoice list is `facturas`, the normalized
output holds one record per invoice; an invoice whose days-overdue was not
supplied and that has a due date gets `max 0 ⌈(now − due)/1 day⌉` as its
days-overdue; every output invoice's tier is current (`vigente`) when its
days-overdue ≤ 0, overdue (`vencida`) when ≤ 30, severely overdue
(`muy_vencida`) otherwise; and the account tier applies the same thresholds to
the maximum of the output invoices' days-overdue, with current
(`al_corriente`) for an empty list. -/
theorem claim_c7_balance_tiers (env : NormEnv) (s : Val) (facturas : List Val)
    (hf : getF s "facturas_pendientes" = .arr facturas) :
    ∃ l : List Val,
      getF (getF (saldoToUserFriendly env s) "facturas_pendientes") "facturas" = .arr l ∧
      l.length = facturas.length ∧
      (∀ i (hi : i < facturas.length) (hl : i < l.length),
         (getF (facturas.get ⟨i, hi⟩) "dias_vencido" = .null →
          (getF (facturas.get ⟨i, hi⟩) "fecha_vencimiento").truthy = true →
          getF (l.get ⟨i, hl⟩) "dias_vencido" =
            .num (max 0 (ceilDays
              (env.now - env.parseDate (getF (facturas.get ⟨i, hi⟩) "fecha_vencimiento"))))) ∧
         getF (l.get ⟨i, hl⟩) "estado_vencimiento" =
           .str (if asNum (getF (l.get ⟨i, hl⟩) "dias_vencido") ≤ 0 then "vigente"
                 else if asNum (getF (l.get ⟨i, hl⟩) "dias_vencido") ≤ 30 then "vencida"
                 else "muy_vencida")) ∧
      (facturas = [] →
         getF (saldoToUserFriendly env s) "estado_cuenta" = .str "al_corriente") ∧
      (¬ facturas = [] → ∃ m : Int,
         m ∈ l.map diasOf ∧ (∀ d ∈ l.map diasOf, d ≤ m) ∧
         getF (saldoToUserFriendly env s) "estado_cuenta" =
           .str (if m ≤ 0 then "al_corriente"
                 else if m ≤ 30 then "con_atraso"
                 else "muy_atrasado")) := by
  refine ⟨(facturas.map (enrichFactura env)).map (saldoFacturaOut env),
    getF_saldo_facturas env s facturas hf, by simp, ?_, ?_, ?_⟩
  · intro i hi hl
    have hget : ((facturas.map (enrichFactura env)).map (saldoFacturaOut env)).get ⟨i, hl⟩ =
        saldoFacturaOut env (enrichFactura env (facturas.get ⟨i, hi⟩)) := by
      simp [List.get_map]
    constructor
    · intro hd hfv
      rw [hget, getF_saldoFacturaOut_dias, getF_enrichFactura_dias_derived env _ hd hfv]
    · rw [hget, getF_saldoFacturaOut_estado, getF_saldoFacturaOut_dias]
      rfl
  · intro hemp
    subst hemp
    rw [getF_saldo_estado env s [] hf]
    rfl
  · intro hne
    cases hF : facturas with
    | nil => exact absurd hF hne
    | cons f0 fs0 =>
        subst hF
        have hml : (((f0 :: fs0).map (enrichFactura env)).map (saldoFacturaOut env)).map
            diasOf =
            diasOf (enrichFactura env f0) :: (fs0.map (enrichFactura env)).map diasOf := by
          simp [List.map_map, Function.comp, diasOf_saldoFacturaOut]
        refine ⟨((fs0.map (enrichFactura env)).map diasOf).foldl max
                  (diasOf (enrichFactura env f0)), ?_, ?_, ?_⟩
        · rw [hml]
          exact mem_foldl_max _ _
        · intro d hd
          rw [hml] at hd
          exact le_foldl_max _ _ d hd
        · rw [getF_saldo_estado env s (f0 :: fs0) hf]
          rfl

/-- Witness for C7: no invoices gives the current tier (via the theorem); an
invoice due 40 days ago is derived to 40 days overdue and the account is
severely overdue; 10 days ago gives the overdue tier. -/
theorem claim_c7_balance_tiers_witness :
    getF (saldoToUserFriendly env1 sEmpty) "estado_cuenta" = .str "al_corriente" ∧
    getF (saldoToUserFriendly env1 s40) "estado_cuenta" = .str "muy_atrasado" ∧
    getF (saldoToUserFriendly env1 s10) "estado_cuenta" = .str "con_atraso" ∧
    getF (enrichFactura env1 f40) "dias_vencido" = .num 40 ∧
    getF (enrichFactura env1 f10) "dias_vencido" = .num 10 := by
  obtain ⟨l, hA, hB, hC, hD, hE⟩ := claim_c7_balance_tiers env1 sEmpty [] rfl
  exact ⟨hD rfl, rfl, rfl, rfl, rfl⟩

end ClaimC7
